import Mathlib

/-!
Shallow embedding of the sample observability demo app (src/sample-app/app.py).

The app is a Flask web service.  We embed the parts the specification talks
about: the per-request instrumentation middleware and the endpoint handlers.
Conventions of the embedding:

* Metric state (Prometheus counters and histograms, and the OpenTelemetry
  counter and histogram) is a record of lists; an increment or observation
  prepends the labelled sample to the corresponding list.  The length of a
  list is the number of increments/observations made so far.
* Readings of the system clock (time.time in Python) are passed in as
  explicit rational arguments.  time.time is the wall clock: the Python
  documentation gives it no monotonicity guarantee (it can return a lower
  value than an earlier call if the system clock is set back), so the
  embedding places no constraint on consecutive readings.
* Random draws are passed in explicitly.  random.choice of a literal list
  is modelled as indexing that list with a supplied index (Fin n), which is
  exactly the guarantee random.choice gives; random.randint(10, 50) is
  modelled as 10 + a supplied value of Fin 41; random.uniform(1, 3) is a
  supplied rational, constrained to [1, 3] in theorem hypotheses, which is
  the guarantee random.uniform gives.
* Span creation and attribute setting, logging, sleeping and Pyroscope
  profiling have no effect on the modelled state (responses and metric
  state) and are omitted.
* The outbound HTTP GET of the /external handler is an effect of the
  requests library, modelled as an explicit outcome argument: either an
  exception text (requests.exceptions.RequestException) or the remote
  status code and decoded JSON body.
-/

/-- JSON-like values, as produced by flask.jsonify. -/
inductive JVal : Type where
  | str (s : String)
  | num (q : ℚ)
  | obj (fields : List (String × JVal))
  | arr (items : List JVal)

/-- A response body: a JSON object (flask.jsonify) or raw text
(generate_latest on the /metrics endpoint). -/
inductive Body : Type where
  | json (fields : List (String × JVal))
  | text (s : String)

/-- Field lookup in a JSON-object body. -/
def Body.lookup : Body → String → Option JVal
  | Body.json fields, k => List.lookup k fields
  | Body.text _, _ => none

/-- A Flask response, as far as the modelled code observes it: status code,
body, and the Content-Type header when the handler sets one explicitly. -/
structure HttpResponse where
  status_code : Nat
  body : Body
  content_type : Option String

/-- The incoming request as the modelled code observes it: HTTP method, the
resolved endpoint name (None when routing did not resolve one), the query
arguments, and the start_time attribute that before_request may have set.
A request fresh from the framework has start_time none (hasattr is false). -/
structure Request where
  method : String
  endpoint : Option String
  args : List (String × String)
  start_time : Option ℚ

/-- The process-wide metric state.  Each field records the samples of one
metric, most recent first:
http_requests_total is the Prometheus counter labelled (method, endpoint,
status); http_request_duration_seconds the Prometheus duration histogram;
business_operations_total the Prometheus counter labelled operation_type;
otel_http_requests_total the OpenTelemetry counter labelled
(method, endpoint, status-as-string); otel_http_request_duration the
OpenTelemetry histogram labelled (method, endpoint). -/
structure MetricsState where
  http_requests_total : List (String × String × Nat)
  http_request_duration_seconds : List ℚ
  business_operations_total : List String
  otel_http_requests_total : List (String × String × String)
  otel_http_request_duration : List (ℚ × String × String)

/-- REQUEST_COUNT.labels(method, endpoint, status).inc() -/
def REQUEST_COUNT_inc (s : MetricsState) (method endpoint : String) (status : Nat) : MetricsState :=
  { s with http_requests_total := (method, endpoint, status) :: s.http_requests_total }

/-- REQUEST_LATENCY.observe(duration) -/
def REQUEST_LATENCY_observe (s : MetricsState) (duration : ℚ) : MetricsState :=
  { s with http_request_duration_seconds := duration :: s.http_request_duration_seconds }

/-- BUSINESS_METRIC.labels(operation_type).inc() -/
def BUSINESS_METRIC_inc (s : MetricsState) (operation_type : String) : MetricsState :=
  { s with business_operations_total := operation_type :: s.business_operations_total }

/-- otel_request_counter.add(1, attributes) -/
def otel_request_counter_add (s : MetricsState) (method endpoint status : String) : MetricsState :=
  { s with otel_http_requests_total := (method, endpoint, status) :: s.otel_http_requests_total }

/-- otel_request_duration.record(duration, attributes) -/
def otel_request_duration_record (s : MetricsState) (duration : ℚ) (method endpoint : String) : MetricsState :=
  { s with otel_http_request_duration := (duration, method, endpoint) :: s.otel_http_request_duration }

/-- Python truthiness fallback: request.endpoint or the string unknown.
A None endpoint, and also an empty string (falsy in Python), fall back. -/
def endpointOrUnknown : Option String → String
  | none => "unknown"
  | some e => if e = "" then "unknown" else e

/-- The before_request hook: request.start_time = time.time().  The clock
reading is the explicit argument now. -/
def before_request (now : ℚ) (req : Request) : Request :=
  { req with start_time := some now }

/-- The after_request hook.  Increments the Prometheus request counter; then,
if the request carries a start_time attribute, observes the elapsed time in
the Prometheus latency histogram, increments the OpenTelemetry request
counter, and records the elapsed time in the OpenTelemetry duration
histogram.  Returns the response it was given.  The clock reading taken by
time.time inside the hook is the explicit argument now. -/
def after_request (now : ℚ) (req : Request) (s : MetricsState) (response : HttpResponse) :
    MetricsState × HttpResponse :=
  let s1 := REQUEST_COUNT_inc s req.method (endpointOrUnknown req.endpoint) response.status_code
  match req.start_time with
  | some t0 =>
    let duration := now - t0
    let s2 := REQUEST_LATENCY_observe s1 duration
    let s3 := otel_request_counter_add s2 req.method (endpointOrUnknown req.endpoint)
      (toString response.status_code)
    let s4 := otel_request_duration_record s3 duration req.method (endpointOrUnknown req.endpoint)
    (s4, response)
  | none => (s1, response)

/-- The /slow handler.  sleep_time is the draw of random.uniform(1, 3); rand
gives the successive draws of random.random() in the CPU loop.  The handler
accumulates result over 100000 iterations, increments the business counter
with operation_type slow_operation, and returns a 200 JSON response carrying
the sleep duration and the accumulated result. -/
def slow_operation (sleep_time : ℚ) (rand : ℕ → ℚ) (s : MetricsState) :
    MetricsState × HttpResponse :=
  let result := (List.range 100000).foldl (fun (result : ℚ) (i : ℕ) => result + (i : ℚ) * rand i) 0
  let s1 := BUSINESS_METRIC_inc s "slow_operation"
  (s1,
   { status_code := 200,
     body := Body.json
       [("message", JVal.str "Slow operation completed"),
        ("duration", JVal.num sleep_time),
        ("result", JVal.num result)],
     content_type := none })

/-- The /error handler.  Reads the type query argument, defaulting to random;
a random type is replaced by the element of [500, 404, timeout, success]
selected by the draw randChoice of random.choice.  Then branches: 500 and 404
return those statuses with an error body; timeout sleeps ten seconds and
returns 200; anything else increments the business counter with
operation_type error_handled and returns 200 with a no-error message. -/
def error_scenario (randChoice : Fin 4) (req : Request) (s : MetricsState) :
    MetricsState × HttpResponse :=
  let error_type := (List.lookup "type" req.args).getD "random"
  let error_type :=
    if error_type = "random" then
      (["500", "404", "timeout", "success"] : List String).get randChoice
    else error_type
  if error_type = "500" then
    (s, { status_code := 500,
          body := Body.json [("error", JVal.str "Internal server error")],
          content_type := none })
  else if error_type = "404" then
    (s, { status_code := 404,
          body := Body.json [("error", JVal.str "Resource not found")],
          content_type := none })
  else if error_type = "timeout" then
    (s, { status_code := 200,
          body := Body.json [("message", JVal.str "This shouldn\u0027t be reached")],
          content_type := none })
  else
    (BUSINESS_METRIC_inc s "error_handled",
     { status_code := 200,
       body := Body.json [("message", JVal.str "No error occurred")],
       content_type := none })

/-- The /external handler.  outbound is the outcome of
requests.get(httpbin.org/delay/1, timeout=5): Except.error e models a raised
requests.exceptions.RequestException with text e, Except.ok (code, data) a
response with status code and JSON body data.  On success the handler
increments the business counter external_call_success and returns 200 with
the remote status and body; on the exception it increments
external_call_failure and returns 500 with the exception text. -/
def external_call (outbound : Except String (Nat × JVal)) (s : MetricsState) :
    MetricsState × HttpResponse :=
  match outbound with
  | Except.ok (code, data) =>
    (BUSINESS_METRIC_inc s "external_call_success",
     { status_code := 200,
       body := Body.json
         [("message", JVal.str "External call successful"),
          ("status_code", JVal.num code),
          ("data", data)],
       content_type := none })
  | Except.error e =>
    (BUSINESS_METRIC_inc s "external_call_failure",
     { status_code := 500,
       body := Body.json
         [("error", JVal.str "External call failed"),
          ("details", JVal.str e)],
       content_type := none })

/-- The constant CONTENT_TYPE_LATEST of the prometheus_client library
(prometheus_client/exposition.py), used verbatim by the /metrics handler. -/
def CONTENT_TYPE_LATEST : String := "text/plain; version=0.0.4; charset=utf-8"

/-- The /metrics handler: returns generate_latest() with status 200 and the
Content-Type header set to CONTENT_TYPE_LATEST.  The exposition text produced
by the library from the metric state is opaque to this repository and is
passed in as the argument exposition. -/
def metrics (exposition : String) (s : MetricsState) : MetricsState × HttpResponse :=
  (s, { status_code := 200,
        body := Body.text exposition,
        content_type := some CONTENT_TYPE_LATEST })

/-- One iteration of the /generate-load loop: appends a result object with
the operation index and its type (the element of [fast, medium, slow]
selected by the draw choice i of random.choice) and increments the per-tier
business counter.  The tier-specific sleep has no effect on modelled state. -/
def load_step (choice : ℕ → Fin 3) (acc : List JVal × MetricsState) (i : ℕ) :
    List JVal × MetricsState :=
  let operation_type := (["fast", "medium", "slow"] : List String).get (choice i)
  (acc.1 ++ [JVal.obj [("operation", JVal.num i), ("type", JVal.str operation_type)]],
   BUSINESS_METRIC_inc acc.2 ("load_" ++ operation_type))

/-- The /generate-load handler.  operations is random.randint(10, 50),
modelled as 10 + a draw opDraw of Fin 41; the loop runs load_step once per
operation; the handler returns 200 with the operation count and the result
list. -/
def generate_load (opDraw : Fin 41) (choice : ℕ → Fin 3) (s : MetricsState) :
    MetricsState × HttpResponse :=
  let operations := 10 + opDraw.val
  let acc := (List.range operations).foldl (load_step choice) ([], s)
  (acc.2,
   { status_code := 200,
     body := Body.json
       [("message", JVal.str "Load generation completed"),
        ("operations", JVal.num operations),
        ("results", JVal.arr acc.1)],
     content_type := none })

/-- The empty metric state, as at process start. -/
def ms0 : MetricsState :=
  { http_requests_total := [],
    http_request_duration_seconds := [],
    business_operations_total := [],
    otel_http_requests_total := [],
    otel_http_request_duration := [] }

/-- A concrete response used in witnesses. -/
def respW : HttpResponse :=
  { status_code := 200, body := Body.json [], content_type := none }

/-- A concrete request carrying a start_time attribute, used in witnesses. -/
def reqTimed : Request :=
  { method := "GET", endpoint := some "slow_operation", args := [], start_time := some 5 }

/-- A concrete request without a start_time attribute, used in witnesses. -/
def reqBare : Request :=
  { method := "GET", endpoint := none, args := [], start_time := none }

/-- Claim C1: for every request processed through the middleware, after_request
adds exactly one sample to the Prometheus request counter, labelled by the
method, the resolved endpoint (or unknown), and the numeric status; and when
the request carries a start timestamp, the duration histogram receives
exactly one observation, and otherwise none — for every response, so
regardless of whether the handler succeeded or returned an error response. -/
theorem after_request_counts_once (now : ℚ) (req : Request) (s : MetricsState)
    (response : HttpResponse) :
    (after_request now req s response).1.http_requests_total =
      (req.method, endpointOrUnknown req.endpoint, response.status_code) :: s.http_requests_total
    ∧ (∀ t0 : ℚ, req.start_time = some t0 →
        (after_request now req s response).1.http_request_duration_seconds =
          (now - t0) :: s.http_request_duration_seconds)
    ∧ (req.start_time = none →
        (after_request now req s response).1.http_request_duration_seconds =
          s.http_request_duration_seconds) := by
  refine ⟨?_, ?_, ?_⟩
  · cases h : req.start_time <;>
      simp [after_request, h, REQUEST_COUNT_inc, REQUEST_LATENCY_observe,
        otel_request_counter_add, otel_request_duration_record]
  · intro t0 h
    simp [after_request, h, REQUEST_COUNT_inc, REQUEST_LATENCY_observe,
      otel_request_counter_add, otel_request_duration_record]
  · intro h
    simp [after_request, h, REQUEST_COUNT_inc]

/-- Witness for C1 at a concrete timed request. -/
theorem after_request_counts_once_witness :
    (after_request 8 reqTimed ms0 respW).1.http_requests_total =
      (reqTimed.method, endpointOrUnknown reqTimed.endpoint, respW.status_code) ::
        ms0.http_requests_total
    ∧ (after_request 8 reqTimed ms0 respW).1.http_request_duration_seconds =
        ((8 : ℚ) - 5) :: ms0.http_request_duration_seconds :=
  ⟨(after_request_counts_once 8 reqTimed ms0 respW).1,
   (after_request_counts_once 8 reqTimed ms0 respW).2.1 5 rfl⟩

/-- Claim C2: after_request is side-effect only on the metric state; it
returns the very response object it was given, unchanged, for every request
and response. -/
theorem after_request_returns_response_unchanged (now : ℚ) (req : Request) (s : MetricsState)
    (response : HttpResponse) :
    (after_request now req s response).2 = response := by
  cases h : req.start_time <;> simp [after_request, h]

/-- Claim C9 counterexample: before_request records time.time(), the system
wall clock, which is not monotonic; when the clock is set back between the
two readings (here from 5 to 3), the elapsed time observed by after_request
is negative, refuting the claim that the elapsed time is never negative. -/
theorem wall_clock_duration_negative :
    (after_request 3 (before_request 5 reqBare) ms0 respW).1.http_request_duration_seconds =
      [(-2 : ℚ)]
    ∧ ((-2 : ℚ) < 0) := by
  constructor
  · norm_num [after_request, before_request, reqBare, ms0, REQUEST_COUNT_inc,
      REQUEST_LATENCY_observe, otel_request_counter_add, otel_request_duration_record]
  · norm_num

/-- Claim C9 as amended: before_request records a wall-clock timestamp on the
request context before any handler runs, and the elapsed time computed by
after_request equals the later clock reading minus the recorded one, hence is
nonnegative whenever the wall clock was not set backwards in between. -/
theorem before_request_then_after_request_duration (now0 now1 : ℚ) (req : Request)
    (s : MetricsState) (response : HttpResponse) (h : now0 ≤ now1) :
    (before_request now0 req).start_time = some now0
    ∧ (after_request now1 (before_request now0 req) s response).1.http_request_duration_seconds =
        (now1 - now0) :: s.http_request_duration_seconds
    ∧ 0 ≤ now1 - now0 := by
  refine ⟨rfl, ?_, by linarith⟩
  simp [after_request, before_request, REQUEST_COUNT_inc, REQUEST_LATENCY_observe,
    otel_request_counter_add, otel_request_duration_record]

/-- Witness for the amended C9 at concrete clock readings 5 and 8. -/
theorem before_request_then_after_request_duration_witness :
    (before_request 5 reqBare).start_time = some 5
    ∧ (after_request 8 (before_request 5 reqBare) ms0 respW).1.http_request_duration_seconds =
        ((8 : ℚ) - 5) :: ms0.http_request_duration_seconds
    ∧ (0 : ℚ) ≤ 8 - 5 :=
  before_request_then_after_request_duration 5 8 reqBare ms0 respW (by norm_num)

/-- Claim C10: the OpenTelemetry request counter is incremented only when the
request carries a start timestamp.  Without one, the Prometheus request
counter is still incremented but the OpenTelemetry counter and both duration
histograms are untouched; with one, the OpenTelemetry counter gains exactly
one sample — so the two request counters can diverge. -/
theorem otel_counter_requires_start_time (now : ℚ) (req : Request) (s : MetricsState)
    (response : HttpResponse) :
    (req.start_time = none →
      (after_request now req s response).1.http_requests_total =
        (req.method, endpointOrUnknown req.endpoint, response.status_code) ::
          s.http_requests_total
      ∧ (after_request now req s response).1.otel_http_requests_total =
          s.otel_http_requests_total
      ∧ (after_request now req s response).1.http_request_duration_seconds =
          s.http_request_duration_seconds
      ∧ (after_request now req s response).1.otel_http_request_duration =
          s.otel_http_request_duration)
    ∧ (∀ t0 : ℚ, req.start_time = some t0 →
      (after_request now req s response).1.otel_http_requests_total =
        (req.method, endpointOrUnknown req.endpoint, toString response.status_code) ::
          s.otel_http_requests_total) := by
  constructor
  · intro h
    refine ⟨?_, ?_, ?_, ?_⟩ <;> simp [after_request, h, REQUEST_COUNT_inc]
  · intro t0 h
    simp [after_request, h, REQUEST_COUNT_inc, REQUEST_LATENCY_observe,
      otel_request_counter_add, otel_request_duration_record]

/-- Witness for C10 at a request without and a request with a start_time. -/
theorem otel_counter_requires_start_time_witness :
    (after_request 8 reqBare ms0 respW).1.otel_http_requests_total =
      ms0.otel_http_requests_total
    ∧ (after_request 8 reqTimed ms0 respW).1.otel_http_requests_total =
        (reqTimed.method, endpointOrUnknown reqTimed.endpoint, toString respW.status_code) ::
          ms0.otel_http_requests_total :=
  ⟨((otel_counter_requires_start_time 8 reqBare ms0 respW).1 rfl).2.1,
   (otel_counter_requires_start_time 8 reqTimed ms0 respW).2 5 rfl⟩

/-- Claim C3: the /slow handler returns status 200 and the duration field of
its JSON body is the sleep time, which random.uniform(1, 3) guarantees to lie
in [1, 3]. -/
theorem slow_operation_ok (sleep_time : ℚ) (rand : ℕ → ℚ) (s : MetricsState)
    (h1 : 1 ≤ sleep_time) (h3 : sleep_time ≤ 3) :
    (slow_operation sleep_time rand s).2.status_code = 200
    ∧ (slow_operation sleep_time rand s).2.body.lookup "duration" =
        some (JVal.num sleep_time)
    ∧ 1 ≤ sleep_time ∧ sleep_time ≤ 3 := by
  refine ⟨rfl, ?_, h1, h3⟩
  simp [slow_operation, Body.lookup, List.lookup]

/-- Witness for C3 at the concrete draw 2. -/
theorem slow_operation_ok_witness :
    (slow_operation 2 (fun _ => 0) ms0).2.status_code = 200
    ∧ (slow_operation 2 (fun _ => 0) ms0).2.body.lookup "duration" = some (JVal.num 2)
    ∧ (1 : ℚ) ≤ 2 ∧ (2 : ℚ) ≤ 3 :=
  slow_operation_ok 2 (fun _ => 0) ms0 (by norm_num) (by norm_num)

/-- Claim C5: an explicit type query argument that is none of 500, 404,
timeout, random falls through to the success branch: the business counter
gains an error_handled sample and the response is 200 with the no-error
message. -/
theorem error_scenario_unrecognized_success (randChoice : Fin 4) (req : Request)
    (s : MetricsState) (t : String)
    (harg : List.lookup "type" req.args = some t)
    (h500 : t ≠ "500") (h404 : t ≠ "404") (htimeout : t ≠ "timeout")
    (hrandom : t ≠ "random") :
    (error_scenario randChoice req s).1.business_operations_total =
      "error_handled" :: s.business_operations_total
    ∧ (error_scenario randChoice req s).2.status_code = 200
    ∧ (error_scenario randChoice req s).2.body =
        Body.json [("message", JVal.str "No error occurred")] := by
  refine ⟨?_, ?_, ?_⟩ <;>
    simp [error_scenario, harg, h500, h404, htimeout, hrandom, BUSINESS_METRIC_inc]

/-- A concrete request with type=success, used in witnesses. -/
def reqSuccess : Request :=
  { method := "GET", endpoint := some "error_scenario",
    args := [("type", "success")], start_time := none }

/-- Witness for C5 at the explicit type success. -/
theorem error_scenario_unrecognized_success_witness :
    (error_scenario 0 reqSuccess ms0).1.business_operations_total =
      "error_handled" :: ms0.business_operations_total
    ∧ (error_scenario 0 reqSuccess ms0).2.status_code = 200
    ∧ (error_scenario 0 reqSuccess ms0).2.body =
        Body.json [("message", JVal.str "No error occurred")] :=
  error_scenario_unrecognized_success 0 reqSuccess ms0 "success" rfl
    (by decide) (by decide) (by decide) (by decide)

/-- Claim C6: an explicit type=500 yields status 500 with the internal-error
body, and an explicit type=404 yields status 404 with the not-found body. -/
theorem error_scenario_explicit_500_404 (randChoice : Fin 4) (req : Request)
    (s : MetricsState) :
    (List.lookup "type" req.args = some "500" →
      (error_scenario randChoice req s).2.status_code = 500
      ∧ (error_scenario randChoice req s).2.body =
          Body.json [("error", JVal.str "Internal server error")])
    ∧ (List.lookup "type" req.args = some "404" →
      (error_scenario randChoice req s).2.status_code = 404
      ∧ (error_scenario randChoice req s).2.body =
          Body.json [("error", JVal.str "Resource not found")]) := by
  constructor
  · intro h
    constructor <;> simp [error_scenario, h]
  · intro h
    constructor <;> simp [error_scenario, h]

/-- A concrete request with type=500, used in witnesses. -/
def req500 : Request :=
  { method := "GET", endpoint := some "error_scenario",
    args := [("type", "500")], start_time := none }

/-- A concrete request with type=404, used in witnesses. -/
def req404 : Request :=
  { method := "GET", endpoint := some "error_scenario",
    args := [("type", "404")], start_time := none }

/-- Witness for C6 at the explicit types 500 and 404. -/
theorem error_scenario_explicit_500_404_witness :
    ((error_scenario 0 req500 ms0).2.status_code = 500
      ∧ (error_scenario 0 req500 ms0).2.body =
          Body.json [("error", JVal.str "Internal server error")])
    ∧ ((error_scenario 0 req404 ms0).2.status_code = 404
      ∧ (error_scenario 0 req404 ms0).2.body =
          Body.json [("error", JVal.str "Resource not found")]) :=
  ⟨(error_scenario_explicit_500_404 0 req500 ms0).1 rfl,
   (error_scenario_explicit_500_404 0 req404 ms0).2 rfl⟩

/-- Claim C7: when the outbound GET raises a network exception the /external
handler returns 500 with an error field and a details field holding the
exception text and increments the business counter external_call_failure;
on success it returns 200 with the remote status code and body. -/
theorem external_call_outcomes (s : MetricsState) :
    (∀ e : String,
      (external_call (Except.error e) s).2.status_code = 500
      ∧ (external_call (Except.error e) s).2.body.lookup "error" =
          some (JVal.str "External call failed")
      ∧ (external_call (Except.error e) s).2.body.lookup "details" = some (JVal.str e)
      ∧ (external_call (Except.error e) s).1.business_operations_total =
          "external_call_failure" :: s.business_operations_total)
    ∧ (∀ (code : ℕ) (data : JVal),
      (external_call (Except.ok (code, data)) s).2.status_code = 200
      ∧ (external_call (Except.ok (code, data)) s).2.body.lookup "status_code" =
          some (JVal.num code)
      ∧ (external_call (Except.ok (code, data)) s).2.body.lookup "data" = some data
      ∧ (external_call (Except.ok (code, data)) s).1.business_operations_total =
          "external_call_success" :: s.business_operations_total) := by
  constructor
  · intro e
    refine ⟨rfl, ?_, ?_, ?_⟩ <;> simp [external_call, Body.lookup, List.lookup, BUSINESS_METRIC_inc]
  · intro code data
    refine ⟨rfl, ?_, ?_, ?_⟩ <;> simp [external_call, Body.lookup, List.lookup, BUSINESS_METRIC_inc]

/-- Claim C8 counterexample: the Content-Type header set by the /metrics
handler is the CONTENT_TYPE_LATEST constant of prometheus_client, which also
carries a charset parameter, so it is not exactly the claimed value. -/
theorem metrics_content_type_not_bare :
    (metrics "" ms0).2.content_type ≠ some "text/plain; version=0.0.4" := by
  simp [metrics, CONTENT_TYPE_LATEST]

/-- Claim C8 as amended: the /metrics handler returns status 200 with the
Content-Type header exactly the prometheus_client exposition content type,
text/plain with the version and charset parameters. -/
theorem metrics_ok (exposition : String) (s : MetricsState) :
    (metrics exposition s).2.status_code = 200
    ∧ (metrics exposition s).2.content_type =
        some "text/plain; version=0.0.4; charset=utf-8" :=
  ⟨rfl, rfl⟩

/-- The result-list component of the /generate-load loop: folding load_step
over a list of indices appends one result object per index, in order. -/
theorem load_foldl_results (choice : ℕ → Fin 3) (l : List ℕ) (racc : List JVal)
    (sacc : MetricsState) :
    (l.foldl (load_step choice) (racc, sacc)).1 =
      racc ++ l.map (fun (i : ℕ) => JVal.obj
        [("operation", JVal.num (i : ℚ)),
         ("type", JVal.str ((["fast", "medium", "slow"] : List String).get (choice i)))]) := by
  induction l generalizing racc sacc with
  | nil => simp
  | cons a l ih => simp [load_step, ih]

/-- Claim C4: the /generate-load handler returns status 200, an operations
field between 10 and 50, a results list whose length equals operations, and
every result is an object whose type field is fast, medium or slow. -/
theorem generate_load_ok (opDraw : Fin 41) (choice : ℕ → Fin 3) (s : MetricsState) :
    (generate_load opDraw choice s).2.status_code = 200
    ∧ (generate_load opDraw choice s).2.body.lookup "operations" =
        some (JVal.num (10 + opDraw.val))
    ∧ 10 ≤ 10 + opDraw.val ∧ 10 + opDraw.val ≤ 50
    ∧ ∃ results : List JVal,
        (generate_load opDraw choice s).2.body.lookup "results" = some (JVal.arr results)
        ∧ results.length = 10 + opDraw.val
        ∧ ∀ r ∈ results, ∃ (i : ℕ) (t : String),
            r = JVal.obj [("operation", JVal.num (i : ℚ)), ("type", JVal.str t)]
            ∧ t ∈ (["fast", "medium", "slow"] : List String) := by
  have hlt : opDraw.val < 41 := opDraw.isLt
  refine ⟨rfl, ?_, Nat.le_add_right 10 _, by omega, ?_⟩
  · simp [generate_load, Body.lookup, List.lookup]
  · refine ⟨(List.range (10 + opDraw.val)).map (fun (i : ℕ) => JVal.obj
      [("operation", JVal.num (i : ℚ)),
       ("type", JVal.str ((["fast", "medium", "slow"] : List String).get (choice i)))]),
      ?_, ?_, ?_⟩
    · simp [generate_load, Body.lookup, List.lookup, load_foldl_results]
    · simp
    · intro r hr
      simp only [List.mem_map, List.mem_range] at hr
      obtain ⟨i, _, rfl⟩ := hr
      exact ⟨i, _, rfl,
        List.get_mem (["fast", "medium", "slow"] : List String) (choice i).1 (choice i).2⟩
